import Mathlib

/-!
# Verification of the pytopoviz processing-pipeline core

Shallow embedding of the `pytopoviz` package (MapObject, the processor
expansion engine, the built-in processors, and the workflow
serializer/deserializer), with theorems settling the spec claims.

Float arrays are modelled as lists of `FVal` (finite rational, NaN, or a
signed infinity); inside a `MapObject` the stored `value` array is a list
of `Option ℚ` because `MapObject._prepare_value` normalizes every
non-finite entry to NaN (`none`).  The external numeric collaborators
(`GridObject.hillshade` from topotoolbox, `scipy.ndimage.gaussian_filter`)
are taken as function parameters, exactly as the spec declares them
out-of-scope black boxes.
-/

namespace PyTopoViz

/-- Raw float values as numpy arrays hold them: NaN, ±Inf, or a finite value
(modelled as a rational). -/
inductive FVal where
  | nan : FVal
  | pinf : FVal
  | ninf : FVal
  | fin : ℚ → FVal
  deriving DecidableEq

/-- `np.isfinite` on a single value. -/
def isFiniteF : FVal → Bool
  | .fin _ => true
  | _ => false

/-- `np.isnan` on a single value (infinities are not NaN). -/
def isNanF : FVal → Bool
  | .nan => true
  | _ => false

/-- `MapObject._prepare_value`: copy to float and set every non-finite entry
to NaN.  The result is represented as `Option ℚ` (`none` = NaN). -/
def prepareValue (raw : List FVal) : List (Option ℚ) :=
  raw.map (fun v => match v with | .fin q => some q | _ => none)

/-- `np.nanmin` over a NaN-masked array: minimum of the finite entries. -/
def nanminL (arr : List (Option ℚ)) : Option ℚ :=
  (arr.filterMap id).min?

/-- `np.nanmax` over a NaN-masked array: maximum of the finite entries. -/
def nanmaxL (arr : List (Option ℚ)) : Option ℚ :=
  (arr.filterMap id).max?

/-- `MapObject._nan_aware_minmax`: `(nanmin, nanmax)` when any entry is
finite, `(nan, nan)` otherwise. -/
def nanAwareMinmax (arr : List (Option ℚ)) : Option ℚ × Option ℚ :=
  if arr.any (fun v => v.isSome) then (nanminL arr, nanmaxL arr)
  else (none, none)

/-- The external topotoolbox `GridObject` interface the core consumes:
a 2D numeric array (flattened row-major here) and a cell size. -/
structure GridObject where
  z : List FVal
  cellsize : ℚ
  deriving DecidableEq

/-- `pytopoviz.map_object.MapObject`: grid reference, display parameters,
lighting overrides, and the mutable `value` array with its derived
`vmin`/`vmax` bounds.  The attached processor list lives on the expansion
engine's `EngLayer` wrapper (processors are functions, which would make
this state type non-decidable). -/
structure MapObject where
  grid : GridObject
  cmap : String
  alpha : ℚ
  cbar : Option String
  name : String
  draped : Bool
  z_scale_factor : ℚ
  ambient : ℚ
  diffuse : ℚ
  specular : ℚ
  specular_power : ℚ
  smooth_shading : Option Bool
  eye_dome_lighting : Option Bool
  light_azimuth : Option ℚ
  light_elevation : Option ℚ
  light_intensity : Option ℚ
  value : List (Option ℚ)
  vmin : Option ℚ
  vmax : Option ℚ
  deriving DecidableEq

/-- `MapObject.__init__`.  The `name` argument is the already-resolved
identifier: the Python constructor validates an explicit name or draws a
random 8-character one; callers of this model pass the resolved string.
`value` is prepared from `grid.z` and `vmin`/`vmax` fall back to the
NaN-aware min/max when not supplied. -/
def mkMapObject (grid : GridObject) (cmap : String) (vmin vmax : Option ℚ)
    (alpha : ℚ) (cbar : Option String) (name : String) (draped : Bool)
    (ambient diffuse specular specular_power : ℚ)
    (smooth_shading eye_dome_lighting : Option Bool)
    (light_azimuth light_elevation light_intensity : Option ℚ) : MapObject :=
  let value := prepareValue grid.z
  let auto := nanAwareMinmax value
  { grid := grid, cmap := cmap, alpha := alpha, cbar := cbar, name := name,
    draped := draped, z_scale_factor := 1,
    ambient := ambient, diffuse := diffuse, specular := specular,
    specular_power := specular_power,
    smooth_shading := smooth_shading, eye_dome_lighting := eye_dome_lighting,
    light_azimuth := light_azimuth, light_elevation := light_elevation,
    light_intensity := light_intensity,
    value := value,
    vmin := (match vmin with | some q => some q | none => auto.1),
    vmax := (match vmax with | some q => some q | none => auto.2) }

/-- `MapObject` construction with the Python default display parameters
(`cmap="terrain"`, `alpha=1.0`, `ambient=0.15`, `diffuse=0.8`,
`specular=0.1`, `specular_power=10.0`, everything else unset). -/
def mkDefaultMapObject (grid : GridObject) (name : String) : MapObject :=
  mkMapObject grid "terrain" none none 1 none name false
    (3/20) (4/5) (1/10) 10 none none none none none

/-- The `MapObject.value` property setter: re-prepare the array and
recompute `vmin`/`vmax` as a side effect. -/
def setValue (s : MapObject) (raw : List FVal) : MapObject :=
  let v := prepareValue raw
  let mm := nanAwareMinmax v
  { s with value := v, vmin := mm.1, vmax := mm.2 }

/-- The `MapObject.grid` property setter: replace the grid and re-run the
value-assignment path on the new grid's data. -/
def setGrid (s : MapObject) (g : GridObject) : MapObject :=
  setValue { s with grid := g } g.z

/-- The clamp `max(0.0, min(1.0, v))` used by the lighting setters. -/
def clamp01 (q : ℚ) : ℚ := max 0 (min 1 q)

/-- The `MapObject.ambient` setter (clamps to `[0, 1]`). -/
def setAmbient (s : MapObject) (q : ℚ) : MapObject :=
  { s with ambient := clamp01 q }

/-- The `MapObject.diffuse` setter (clamps to `[0, 1]`). -/
def setDiffuse (s : MapObject) (q : ℚ) : MapObject :=
  { s with diffuse := clamp01 q }

/-- The `MapObject.specular` setter (clamps to `[0, 1]`). -/
def setSpecular (s : MapObject) (q : ℚ) : MapObject :=
  { s with specular := clamp01 q }

/-- The `MapObject.specular_power` setter (clamps to `≥ 0`). -/
def setSpecularPower (s : MapObject) (q : ℚ) : MapObject :=
  { s with specular_power := max 0 q }

/-- The `MapObject.smooth_shading` setter. -/
def setSmoothShading (s : MapObject) (b : Option Bool) : MapObject :=
  { s with smooth_shading := b }

/-- The `MapObject.eye_dome_lighting` setter. -/
def setEyeDomeLighting (s : MapObject) (b : Option Bool) : MapObject :=
  { s with eye_dome_lighting := b }

/-- The `MapObject.light_azimuth` setter. -/
def setLightAzimuth (s : MapObject) (q : Option ℚ) : MapObject :=
  { s with light_azimuth := q }

/-- The `MapObject.light_elevation` setter. -/
def setLightElevation (s : MapObject) (q : Option ℚ) : MapObject :=
  { s with light_elevation := q }

/-- The `MapObject.light_intensity` setter. -/
def setLightIntensity (s : MapObject) (q : Option ℚ) : MapObject :=
  { s with light_intensity := q }

/-- `MapObject.__eq__`: equality is name equality (between MapObjects). -/
def eqMapObject (a b : MapObject) : Bool := a.name == b.name

/-- `MapObject.__hash__`: the hash of the name string. -/
def hashMapObject (a : MapObject) : UInt64 := hash a.name

/-- Render mode selector: the `"2d"` / `"3d"` strings accepted by
`expand_plottables` (any other string raises, so the model closes the
type). -/
inductive RenderMode where
  | m2d
  | m3d
  deriving DecidableEq

/-- A MapObject together with its attached processor list, as walked by the
expansion engine.  A processor is its two compatibility flags plus its
invocation function; an invocation returns the (possibly mutated) target
state together with what it produced: `none` (Python `None`), one layer, or
a list of layers — mirroring `ProcessingFunction.apply`'s contract. -/
inductive EngLayer : Type where
  | mk : MapObject →
      List (Bool × Bool × (MapObject → MapObject × Option (EngLayer ⊕ List EngLayer))) →
      EngLayer

/-- A processor as the engine sees it: `(compatible_2d, compatible_3d, apply)`. -/
def EngProc : Type :=
  Bool × Bool × (MapObject → MapObject × Option (EngLayer ⊕ List EngLayer))

/-- The state carried by a layer. -/
def EngLayer.state : EngLayer → MapObject
  | .mk s _ => s

/-- The processors attached to a layer. -/
def EngLayer.procList : EngLayer → List EngProc
  | .mk _ ps => ps

/-- The `produced_list` normalization in `expand_plottables`: `None` yields
nothing, a single MapObject becomes a one-element list, a list/tuple is
walked in order.  (The `is_plottable` filter is the identity here: in the
typed model everything a processor produces is a layer.) -/
def spawnedList : Option (EngLayer ⊕ List EngLayer) → List EngLayer
  | none => []
  | some (.inl l) => [l]
  | some (.inr ls) => ls

/-- `_processor_is_compatible`: `mode=None` accepts everything, `"2d"` and
`"3d"` consult the respective flag. -/
def processorIsCompatible (p : EngProc) : Option RenderMode → Bool
  | none => true
  | some .m2d => p.1
  | some .m3d => p.2.1

/-- The body of `walk`'s loop over `current.processors`: thread the target
state through the compatible processors in order, expanding everything each
one produces (via `walkChild`) at the moment it is produced.  Returns the
final state of the current layer and the collected child expansions. -/
def expandLoop (walkChild : EngLayer → List EngLayer) (mode : Option RenderMode) :
    MapObject → List EngProc → MapObject × List EngLayer
  | s, [] => (s, [])
  | s, p :: rest =>
    if processorIsCompatible p mode then
      let r := p.2.2 s
      let kids := ((spawnedList r.2).map walkChild).flatten
      let nxt := expandLoop walkChild mode r.1 rest
      (nxt.1, kids ++ nxt.2)
    else expandLoop walkChild mode s rest

/-- `processing.expand_plottables`: depth-first, pre-order, mode-aware walk.
Python's `collected = [current]` holds a reference that later in-place
mutations update, so the pure translation places the layer's *final* state
at the head.  Recursion into dynamically produced children is paced by
`fuel`; every built-in processor spawns processor-free children, so any
positive fuel computes the exact expansion for them, and the ordering
theorem below holds for every fuel. -/
def expand_plottables : Nat → Option RenderMode → EngLayer → List EngLayer
  | 0, _, l => [l]
  | fuel + 1, mode, .mk s procs =>
    let r := expandLoop (expand_plottables fuel mode) mode s procs
    .mk r.1 procs :: r.2

/-- The final state of a layer after its compatible processors ran in
attachment order (mutations only, children ignored). -/
def runProcessors (mode : Option RenderMode) : MapObject → List EngProc → MapObject
  | s, [] => s
  | s, p :: rest =>
    if processorIsCompatible p mode then runProcessors mode (p.2.2 s).1 rest
    else runProcessors mode s rest

/-- The children produced while running the compatible processors in
attachment order, each captured with the state it was born from, in
production order. -/
def spawnedChildren (mode : Option RenderMode) : MapObject → List EngProc → List EngLayer
  | _, [] => []
  | s, p :: rest =>
    if processorIsCompatible p mode then
      spawnedList (p.2.2 s).2 ++ spawnedChildren mode (p.2.2 s).1 rest
    else spawnedChildren mode s rest

/-- `masknan.nan_below(threshold)`: in-place, sets every value cell `≤`
threshold to NaN (NaN cells compare false and stay NaN); returns `None`.
The in-place element assignment does not touch `vmin`/`vmax`. -/
def nan_below (threshold : ℚ) : EngProc :=
  (true, true, fun m =>
    ({ m with value := m.value.map (fun v =>
        match v with
        | some q => if q ≤ threshold then none else some q
        | none => none) }, none))

/-- The interleaved walk loop decomposes into its two concerns: the final
mutated state of the current layer, and the flattened expansions of the
children in production order. -/
theorem expandLoop_spec (w : EngLayer → List EngLayer) (mode : Option RenderMode) :
    ∀ (procs : List EngProc) (s : MapObject),
      expandLoop w mode s procs =
        (runProcessors mode s procs, ((spawnedChildren mode s procs).map w).flatten) := by
  intro procs
  induction procs with
  | nil => intro s; rfl
  | cons p rest ih =>
    intro s
    by_cases h : processorIsCompatible p mode = true
    · simp [expandLoop, runProcessors, spawnedChildren, h, ih]
    · simp [expandLoop, runProcessors, spawnedChildren, h, ih]

/-- C1: for every root layer and every render mode, the expansion engine
returns the root first (carrying the state left by its compatible
processors, which ran in attachment order), followed by the full recursive
expansion of each produced child, contiguously (`flatten` of per-child
expansions) and in processor attachment / production order. -/
theorem expansion_places_root_first_children_contiguous
    (fuel : Nat) (mode : Option RenderMode) (s : MapObject) (procs : List EngProc) :
    expand_plottables (fuel + 1) mode (.mk s procs) =
      EngLayer.mk (runProcessors mode s procs) procs ::
        ((spawnedChildren mode s procs).map (expand_plottables fuel mode)).flatten := by
  show (let r := expandLoop (expand_plottables fuel mode) mode s procs
        EngLayer.mk r.1 procs :: r.2) = _
  rw [expandLoop_spec]

/-- The 2×2 grid `[[1,2],[3,4]]` of the C7 scenario, flattened row-major. -/
def grid22 : GridObject := ⟨[.fin 1, .fin 2, .fin 3, .fin 4], 1⟩

/-- A default-parameter MapObject over `grid22` with a `nan_below(2.5)`
processor attached. -/
def maskBelowLayer : EngLayer :=
  .mk (mkDefaultMapObject grid22 "demo") [nan_below (5/2)]

/-- C7: expanding the `grid22` layer with `mask-below(2.5)` attached in 2D
mode yields exactly one layer, whose value array is `[[NaN,NaN],[3,4]]`
(the bound is inclusive: both 1 and 2 are ≤ 2.5 and become NaN). -/
theorem mask_below_scenario :
    (expand_plottables 1 (some .m2d) maskBelowLayer).map (fun l => l.state.value) =
      [[none, none, some 3, some 4]] := by
  have h1 : ((1 : ℚ) ≤ 5 / 2) = True := by norm_num
  have h2 : ((2 : ℚ) ≤ 5 / 2) = True := by norm_num
  have h3 : ((3 : ℚ) ≤ 5 / 2) = False := by norm_num
  have h4 : ((4 : ℚ) ≤ 5 / 2) = False := by norm_num
  simp [expand_plottables, expandLoop, maskBelowLayer, mkDefaultMapObject, mkMapObject,
        prepareValue, nan_below, nanAwareMinmax, nanminL, nanmaxL, spawnedList,
        processorIsCompatible, EngLayer.state, grid22, h1, h2, h3, h4]

/-- A list with no `some` entry filter-maps to the empty list. -/
theorem filterMap_id_eq_nil_of_no_some (l : List (Option ℚ))
    (h : l.any (fun v => v.isSome) = false) : l.filterMap id = [] := by
  induction l with
  | nil => rfl
  | cons a rest ih =>
    simp only [List.any_cons, Bool.or_eq_false_iff] at h
    cases a with
    | none => simpa using ih h.2
    | some q => simp at h

/-- C5: after any `value` reassignment through the setter, `vmin`/`vmax`
equal the NaN-aware minimum/maximum of the stored value array (the min/max
of its finite entries), and both are NaN (`none`) when the assigned array
has no finite entry. -/
theorem value_setter_recomputes_bounds (s : MapObject) (raw : List FVal) :
    ((setValue s raw).vmin = nanminL (setValue s raw).value ∧
      (setValue s raw).vmax = nanmaxL (setValue s raw).value) ∧
    (raw.all (fun v => !isFiniteF v) = true →
      (setValue s raw).vmin = none ∧ (setValue s raw).vmax = none) := by
  have hval : (setValue s raw).value = prepareValue raw := rfl
  constructor
  · by_cases h : (prepareValue raw).any (fun v => v.isSome) = true
    · constructor <;> simp [setValue, nanAwareMinmax, h, hval]
    · rw [Bool.not_eq_true] at h
      have hnil := filterMap_id_eq_nil_of_no_some _ h
      constructor <;>
        simp [setValue, nanAwareMinmax, h, hval, nanminL, nanmaxL, hnil]
  · intro hall
    have h : (prepareValue raw).any (fun v => v.isSome) = false := by
      simp only [List.all_eq_true] at hall
      simp only [List.any_eq_false, prepareValue, List.mem_map]
      rintro v ⟨w, hw, rfl⟩
      have := hall w hw
      cases w <;> simp_all [isFiniteF]
    constructor <;> simp [setValue, nanAwareMinmax, h]

/-- Witness for C5 at a concrete all-non-finite assignment. -/
theorem value_setter_recomputes_bounds_witness :
    [FVal.nan, FVal.pinf].all (fun v => !isFiniteF v) = true ∧
      (setValue (mkDefaultMapObject grid22 "demo") [FVal.nan, FVal.pinf]).vmin = none ∧
      (setValue (mkDefaultMapObject grid22 "demo") [FVal.nan, FVal.pinf]).vmax = none :=
  ⟨by decide,
    (value_setter_recomputes_bounds (mkDefaultMapObject grid22 "demo")
      [FVal.nan, FVal.pinf]).2 (by decide)⟩

/-- C9: equality and hashing of MapObjects are determined solely by `name`:
two instances constructed with the same explicit name compare equal and
hash identically whatever their grids and display parameters, and two
MapObjects with different names never compare equal. -/
theorem identity_governed_by_name (g₁ g₂ : GridObject) (cm₁ cm₂ : String)
    (v₁ w₁ v₂ w₂ : Option ℚ) (a₁ a₂ : ℚ) (cb₁ cb₂ : Option String) (n : String)
    (d₁ d₂ : Bool) (am₁ df₁ sp₁ pw₁ am₂ df₂ sp₂ pw₂ : ℚ)
    (ss₁ ed₁ ss₂ ed₂ : Option Bool) (la₁ le₁ li₁ la₂ le₂ li₂ : Option ℚ)
    (m₁ m₂ : MapObject) (hne : m₁.name ≠ m₂.name) :
    (eqMapObject
        (mkMapObject g₁ cm₁ v₁ w₁ a₁ cb₁ n d₁ am₁ df₁ sp₁ pw₁ ss₁ ed₁ la₁ le₁ li₁)
        (mkMapObject g₂ cm₂ v₂ w₂ a₂ cb₂ n d₂ am₂ df₂ sp₂ pw₂ ss₂ ed₂ la₂ le₂ li₂)
        = true ∧
      hashMapObject
        (mkMapObject g₁ cm₁ v₁ w₁ a₁ cb₁ n d₁ am₁ df₁ sp₁ pw₁ ss₁ ed₁ la₁ le₁ li₁) =
      hashMapObject
        (mkMapObject g₂ cm₂ v₂ w₂ a₂ cb₂ n d₂ am₂ df₂ sp₂ pw₂ ss₂ ed₂ la₂ le₂ li₂)) ∧
    eqMapObject m₁ m₂ = false := by
  refine ⟨⟨?_, rfl⟩, ?_⟩
  · simp [eqMapObject, mkMapObject]
  · simp [eqMapObject, hne]

/-- Witness for C9: two same-named MapObjects over different grids are equal
with equal hashes, and two differently-named ones are unequal. -/
theorem identity_governed_by_name_witness :
    (eqMapObject
        (mkMapObject grid22 "terrain" none none 1 none "dem" false
          (3/20) (4/5) (1/10) 10 none none none none none)
        (mkMapObject ⟨[FVal.nan], 2⟩ "gray" (some 0) (some 9) (1/2) (some "m") "dem" true
          1 0 0 1 (some true) (some false) (some 10) (some 20) (some 1))
        = true ∧
      hashMapObject
        (mkMapObject grid22 "terrain" none none 1 none "dem" false
          (3/20) (4/5) (1/10) 10 none none none none none) =
      hashMapObject
        (mkMapObject ⟨[FVal.nan], 2⟩ "gray" (some 0) (some 9) (1/2) (some "m") "dem" true
          1 0 0 1 (some true) (some false) (some 10) (some 20) (some 1))) ∧
    eqMapObject (mkDefaultMapObject grid22 "x") (mkDefaultMapObject grid22 "y") = false :=
  identity_governed_by_name grid22 ⟨[FVal.nan], 2⟩ "terrain" "gray" none none (some 0) (some 9)
    1 (1/2) none (some "m") "dem" false true (3/20) (4/5) (1/10) 10 1 0 0 1
    none none (some true) (some false) none none none (some 10) (some 20) (some 1)
    (mkDefaultMapObject grid22 "x") (mkDefaultMapObject grid22 "y") (by decide)

/-- `helper3d.lighting_intensity_up` invocation function: multiply ambient,
diffuse and specular by 1.2, each through its clamping setter. -/
def lighting_intensity_up_apply (m : MapObject) : MapObject :=
  let m₁ := setAmbient m (m.ambient * (6/5))
  let m₂ := setDiffuse m₁ (m₁.diffuse * (6/5))
  setSpecular m₂ (m₂.specular * (6/5))

/-- `helper3d.lighting_brighten` invocation function: ambient × 1.3 and
diffuse × 1.15, through the clamping setters. -/
def lighting_brighten_apply (m : MapObject) : MapObject :=
  let m₁ := setAmbient m (m.ambient * (13/10))
  setDiffuse m₁ (m₁.diffuse * (23/20))

/-- The C10 invariant: ambient, diffuse, specular in `[0,1]` and
`specular_power ≥ 0`. -/
def lightingInRange (m : MapObject) : Prop :=
  0 ≤ m.ambient ∧ m.ambient ≤ 1 ∧ 0 ≤ m.diffuse ∧ m.diffuse ≤ 1 ∧
  0 ≤ m.specular ∧ m.specular ≤ 1 ∧ 0 ≤ m.specular_power

instance (m : MapObject) : Decidable (lightingInRange m) := by
  unfold lightingInRange
  infer_instance

theorem clamp01_nonneg (q : ℚ) : 0 ≤ clamp01 q := le_max_left 0 _

theorem clamp01_le_one (q : ℚ) : clamp01 q ≤ 1 :=
  max_le (by norm_num) (min_le_left 1 q)

theorem lighting_intensity_up_preserves (m : MapObject) (h : lightingInRange m) :
    lightingInRange (lighting_intensity_up_apply m) := by
  obtain ⟨_, _, _, _, _, _, hp⟩ := h
  refine ⟨?_, ?_, ?_, ?_, ?_, ?_, ?_⟩ <;>
    simp [lighting_intensity_up_apply, setAmbient, setDiffuse, setSpecular,
      clamp01_nonneg, clamp01_le_one, hp]

theorem lighting_brighten_preserves (m : MapObject) (h : lightingInRange m) :
    lightingInRange (lighting_brighten_apply m) := by
  obtain ⟨_, _, _, _, hs0, hs1, hp⟩ := h
  refine ⟨?_, ?_, ?_, ?_, ?_, ?_, ?_⟩ <;>
    simp [lighting_brighten_apply, setAmbient, setDiffuse,
      clamp01_nonneg, clamp01_le_one, hs0, hs1, hp]

/-- C10: the lighting property setters clamp unconditionally (ambient,
diffuse, specular into `[0,1]`, `specular_power` to `≥ 0`); consequently any
number of `lighting_intensity_up` or `lighting_brighten` applications keeps
a well-ranged MapObject well-ranged — the values saturate at 1.0 (a cell
with ambient ≥ 5/6 is driven exactly to 1.0) instead of growing without
bound. -/
theorem lighting_setters_clamp (s : MapObject) (h : lightingInRange s) :
    (∀ (t : MapObject) (q : ℚ),
        (0 ≤ (setAmbient t q).ambient ∧ (setAmbient t q).ambient ≤ 1) ∧
        (0 ≤ (setDiffuse t q).diffuse ∧ (setDiffuse t q).diffuse ≤ 1) ∧
        (0 ≤ (setSpecular t q).specular ∧ (setSpecular t q).specular ≤ 1) ∧
        0 ≤ (setSpecularPower t q).specular_power) ∧
    (∀ k : Nat, lightingInRange (lighting_intensity_up_apply^[k] s)) ∧
    (∀ k : Nat, lightingInRange (lighting_brighten_apply^[k] s)) ∧
    (∀ t : MapObject, 5/6 ≤ t.ambient → (lighting_intensity_up_apply t).ambient = 1) := by
  refine ⟨?_, ?_, ?_, ?_⟩
  · intro t q
    exact ⟨⟨clamp01_nonneg _, clamp01_le_one _⟩, ⟨clamp01_nonneg _, clamp01_le_one _⟩,
      ⟨clamp01_nonneg _, clamp01_le_one _⟩, le_max_left 0 _⟩
  · intro k
    induction k with
    | zero => exact h
    | succ n ih =>
      rw [Function.iterate_succ_apply']
      exact lighting_intensity_up_preserves _ ih
  · intro k
    induction k with
    | zero => exact h
    | succ n ih =>
      rw [Function.iterate_succ_apply']
      exact lighting_brighten_preserves _ ih
  · intro t ht
    have h1 : (1 : ℚ) ≤ t.ambient * (6/5) := by linarith
    simp only [lighting_intensity_up_apply, setAmbient, setDiffuse, setSpecular]
    simp [clamp01, min_eq_left h1]

/-- Witness for C10 at the default MapObject (ambient 0.15, diffuse 0.8,
specular 0.1, specular_power 10). -/
theorem lighting_setters_clamp_witness :
    lightingInRange (mkDefaultMapObject grid22 "demo") ∧
      lightingInRange (lighting_intensity_up_apply^[3] (mkDefaultMapObject grid22 "demo")) :=
  ⟨by norm_num [lightingInRange, mkDefaultMapObject, mkMapObject],
    (lighting_setters_clamp (mkDefaultMapObject grid22 "demo")
      (by norm_num [lightingInRange, mkDefaultMapObject, mkMapObject])).2.1 3⟩

/-- The configuration bag of `helper3d.lighting_control` (every parameter
independently nullable, `enabled` tri-state). -/
structure LightingControlParams where
  enabled : Option Bool
  ambient : Option ℚ
  diffuse : Option ℚ
  specular : Option ℚ
  specular_power : Option ℚ
  smooth_shading : Option Bool
  eye_dome_lighting : Option Bool
  light_azimuth : Option ℚ
  light_elevation : Option ℚ
  light_intensity : Option ℚ
  deriving DecidableEq

/-- `helper3d.lighting_control` invocation function.  When
`enabled is False` the flat preset is forced onto ambient/diffuse/specular/
specular_power/smooth_shading; otherwise each supplied parameter of that
group is applied.  The eye-dome and light azimuth/elevation/intensity
parameters are applied *unconditionally after* that branch, whenever
supplied. -/
def lighting_control_apply (p : LightingControlParams) (s : MapObject) : MapObject :=
  let s₁ :=
    if p.enabled = some false then
      setSmoothShading
        (setSpecularPower (setSpecular (setDiffuse (setAmbient s 1) 0) 0) 1)
        (some false)
    else
      let a := match p.ambient with | some q => setAmbient s q | none => s
      let b := match p.diffuse with | some q => setDiffuse a q | none => a
      let c := match p.specular with | some q => setSpecular b q | none => b
      let d := match p.specular_power with | some q => setSpecularPower c q | none => c
      match p.smooth_shading with | some v => setSmoothShading d (some v) | none => d
  let s₂ := match p.eye_dome_lighting with
    | some v => setEyeDomeLighting s₁ (some v)
    | none => s₁
  let s₃ := match p.light_azimuth with
    | some q => setLightAzimuth s₂ (some q)
    | none => s₂
  let s₄ := match p.light_elevation with
    | some q => setLightElevation s₃ (some q)
    | none => s₃
  match p.light_intensity with
    | some q => setLightIntensity s₄ (some q)
    | none => s₄

/-- An `enabled=false` lighting-control configuration with every other
parameter unset. -/
def lcDisabledPlain : LightingControlParams :=
  ⟨some false, none, none, none, none, none, none, none, none, none⟩

/-- An `enabled=false` configuration that also supplies `light_intensity=2`. -/
def lcDisabledWithIntensity : LightingControlParams :=
  ⟨some false, none, none, none, none, none, none, none, none, some 2⟩

/-- C8 counterexample: with `enabled=false`, the resulting lighting state
*does* depend on the processor's other configured parameters — supplying
`light_intensity=2` changes the result, because the light
azimuth/elevation/intensity and eye-dome blocks run unconditionally after
the flat-preset branch. -/
theorem lighting_disabled_not_full_override :
    (lighting_control_apply lcDisabledWithIntensity (mkDefaultMapObject grid22 "demo")).light_intensity
      ≠
    (lighting_control_apply lcDisabledPlain (mkDefaultMapObject grid22 "demo")).light_intensity := by
  decide

/-- C8 (amended): with `enabled=false`, `lighting_control` forces the flat
preset for ambient (1), diffuse (0), specular (0), specular_power (1) and
smooth_shading (False) regardless of the corresponding configured
parameters — but the eye-dome-lighting and light azimuth/elevation/
intensity parameters are still applied when supplied (and inherited from
the target when not). -/
theorem lighting_disabled_forces_flat_preset (p : LightingControlParams)
    (s : MapObject) (hn : p.enabled = some false) :
    (lighting_control_apply p s).ambient = 1 ∧
    (lighting_control_apply p s).diffuse = 0 ∧
    (lighting_control_apply p s).specular = 0 ∧
    (lighting_control_apply p s).specular_power = 1 ∧
    (lighting_control_apply p s).smooth_shading = some false ∧
    (lighting_control_apply p s).eye_dome_lighting =
      (match p.eye_dome_lighting with | some v => some v | none => s.eye_dome_lighting) ∧
    (lighting_control_apply p s).light_azimuth =
      (match p.light_azimuth with | some q => some q | none => s.light_azimuth) ∧
    (lighting_control_apply p s).light_elevation =
      (match p.light_elevation with | some q => some q | none => s.light_elevation) ∧
    (lighting_control_apply p s).light_intensity =
      (match p.light_intensity with | some q => some q | none => s.light_intensity) := by
  have hc1 : clamp01 1 = 1 := by norm_num [clamp01]
  have hc0 : clamp01 0 = 0 := by norm_num [clamp01]
  have hm1 : max (0 : ℚ) 1 = 1 := by norm_num
  cases he : p.eye_dome_lighting <;> cases ha : p.light_azimuth <;>
    cases hl : p.light_elevation <;> cases hi : p.light_intensity <;>
    simp [lighting_control_apply, hn, he, ha, hl, hi, setAmbient, setDiffuse,
      setSpecular, setSpecularPower, setSmoothShading, setEyeDomeLighting,
      setLightAzimuth, setLightElevation, setLightIntensity, hc1, hc0, hm1]

/-- Witness for C8's amended statement at a concrete disabled configuration. -/
theorem lighting_disabled_forces_flat_preset_witness :
    lcDisabledWithIntensity.enabled = some false ∧
      (lighting_control_apply lcDisabledWithIntensity
          (mkDefaultMapObject grid22 "demo")).ambient = 1 :=
  ⟨rfl,
    (lighting_disabled_forces_flat_preset lcDisabledWithIntensity
      (mkDefaultMapObject grid22 "demo") rfl).1⟩

/-- Re-embed a normalized value into a raw float (NaN for `none`). -/
def optToFVal : Option ℚ → FVal
  | some q => .fin q
  | none => .nan

/-- The finite entries of a raw float array (`arr[np.isfinite(arr)]`). -/
def finiteVals (l : List FVal) : List ℚ :=
  l.filterMap (fun v => match v with | .fin q => some q | _ => none)

/-- `np.ndarray.mean` of a list of finite values. -/
def listMean (l : List ℚ) : ℚ := l.sum / (l.length : ℚ)

/-- `GridObject.duplicate_with_new_data`: structurally identical grid with
replacement (finite) data. -/
def duplicate_with_new_data (g : GridObject) (vals : List ℚ) : GridObject :=
  { z := vals.map FVal.fin, cellsize := g.cellsize }

/-- `hillshading._hillshade_from_values`.  The external
`GridObject.hillshade` illumination routine is the black-box parameter
`hs`; `genName` stands for the random name the derived MapObject draws.
Mirrors the source: NaN mask of the input values, fallback fill with the
mean of the grid's finite data, shading of the filled grid, then
re-masking with the input's NaN footprint when any input cell was finite,
and with the grid's own NaN footprint otherwise; the derived MapObject is
gray, draped, and its `value` is assigned through the setter. -/
def hillshade_from_values (hs : GridObject → ℚ → ℚ → ℚ → Bool → GridObject)
    (genName : String) (mapper : MapObject) (values : List (Option ℚ))
    (azimuth altitude exaggerate : ℚ) (fused : Bool) (alpha : ℚ) : MapObject :=
  let mask : List Bool := values.map Option.isNone
  let has_finite_values := values.any Option.isSome
  let grid_values := mapper.grid.z
  let finite_grid := finiteVals grid_values
  let fallback_val : ℚ := if finite_grid.isEmpty then 0 else listMean finite_grid
  let clean_values := values.map (fun v => v.getD fallback_val)
  let temp_grid := duplicate_with_new_data mapper.grid clean_values
  let hs_grid := hs temp_grid azimuth altitude exaggerate fused
  let shaded : List FVal :=
    if mask.any id then
      if has_finite_values then
        List.zipWith (fun sv m => if m then FVal.nan else sv) hs_grid.z mask
      else
        List.zipWith (fun sv gv => if isNanF gv then FVal.nan else sv) hs_grid.z grid_values
    else hs_grid.z
  let result := mkMapObject hs_grid "gray" none none alpha none genName false
    (3/20) (4/5) (1/10) 10 none none none none none
  setValue { result with draped := true } shaded

/-- `hillshading.hillshade`: shade the mapper's current `value` array. -/
def hillshade (hs : GridObject → ℚ → ℚ → ℚ → Bool → GridObject)
    (genName : String) (mapper : MapObject)
    (azimuth altitude exaggerate : ℚ) (fused : Bool) (alpha : ℚ) : MapObject :=
  hillshade_from_values hs genName mapper mapper.value
    azimuth altitude exaggerate fused alpha

/-- C2: if the mapper's `value` is entirely NaN while its grid has finite
data (and the external hillshade routine returns a finite intensity per
input cell), `hillshade` falls back to shading the grid's own data and
masks with the grid's own NaN footprint: the derived value array has the
grid's length, is NaN exactly where the grid's data is NaN, and has at
least one finite cell. -/
theorem hillshade_all_nan_falls_back_to_grid
    (hs : GridObject → ℚ → ℚ → ℚ → Bool → GridObject) (gn : String)
    (mapper : MapObject) (az alt ex : ℚ) (fu : Bool) (al : ℚ)
    (hlen : ∀ g a b c f, (hs g a b c f).z.length = g.z.length)
    (hfin : ∀ g a b c f, ∀ v ∈ (hs g a b c f).z, isFiniteF v = true)
    (hval : mapper.value.all Option.isNone = true)
    (hlen2 : mapper.value.length = mapper.grid.z.length)
    (hg : ∃ i, i < mapper.grid.z.length ∧
      isFiniteF (mapper.grid.z.getD i .nan) = true) :
    (hillshade hs gn mapper az alt ex fu al).value.length = mapper.grid.z.length ∧
    (∀ i, i < mapper.grid.z.length →
      ((hillshade hs gn mapper az alt ex fu al).value.getD i none = none ↔
        isNanF (mapper.grid.z.getD i .nan) = true)) ∧
    ∃ o ∈ (hillshade hs gn mapper az alt ex fu al).value, o.isSome = true := by
  obtain ⟨j, hj, hjfin⟩ := hg
  -- The mapper's value list is nonempty and entirely `none`.
  have hnonempty : mapper.value ≠ [] := by
    intro h
    simp [h] at hlen2
    omega
  have hhf : mapper.value.any Option.isSome = false := by
    simp only [List.any_eq_false]
    intro o ho
    have := (List.all_eq_true.mp hval) o ho
    simp_all [Option.isNone_iff_eq_none]
  have hmaskany : (mapper.value.map Option.isNone).any id = true := by
    cases hv : mapper.value with
    | nil => exact absurd hv hnonempty
    | cons a rest =>
      have := (List.all_eq_true.mp hval) a (by simp [hv])
      simp [hv, this]
  -- Reduce the definition to the grid-footprint zip.
  have hred : (hillshade hs gn mapper az alt ex fu al).value =
      prepareValue (List.zipWith (fun sv gv => if isNanF gv then FVal.nan else sv)
        (hs (duplicate_with_new_data mapper.grid
          (mapper.value.map (fun v => v.getD
            (if (finiteVals mapper.grid.z).isEmpty then 0
             else listMean (finiteVals mapper.grid.z))))) az alt ex fu).z
        mapper.grid.z) := by
    simp only [hillshade, hillshade_from_values, hmaskany, hhf, setValue]
    rfl
  set hsg := hs (duplicate_with_new_data mapper.grid
    (mapper.value.map (fun v => v.getD
      (if (finiteVals mapper.grid.z).isEmpty then 0
       else listMean (finiteVals mapper.grid.z))))) az alt ex fu with hhsg
  have hhslen : hsg.z.length = mapper.grid.z.length := by
    rw [hhsg, hlen]
    simp [duplicate_with_new_data, hlen2]
  have hlenval : (hillshade hs gn mapper az alt ex fu al).value.length =
      mapper.grid.z.length := by
    rw [hred]
    simp [prepareValue, List.length_zipWith, hhslen]
  refine ⟨hlenval, ?_, ?_⟩
  · intro i hi
    have hzi : ∃ sv, hsg.z[i]? = some sv ∧ isFiniteF sv = true := by
      have hi2 : i < hsg.z.length := by omega
      exact ⟨hsg.z[i], by simp [List.getElem?_eq_getElem hi2],
        hfin _ _ _ _ _ _ (List.getElem_mem hi2)⟩
    obtain ⟨sv, hsv, hsvfin⟩ := hzi
    have hgi : mapper.grid.z[i]? = some (mapper.grid.z[i]) :=
      List.getElem?_eq_getElem hi
    rw [hred, List.getD_eq_getElem?_getD, prepareValue, List.getElem?_map,
      List.getElem?_zipWith', hsv, hgi]
    have hgd : mapper.grid.z.getD i .nan = mapper.grid.z[i] := by
      rw [List.getD_eq_getElem?_getD, hgi]
      rfl
    rw [hgd]
    cases hgz : mapper.grid.z[i] with
    | nan => simp [isNanF]
    | pinf =>
      cases sv with
      | fin q => simp [isNanF]
      | nan => simp [isFiniteF] at hsvfin
      | pinf => simp [isFiniteF] at hsvfin
      | ninf => simp [isFiniteF] at hsvfin
    | ninf =>
      cases sv with
      | fin q => simp [isNanF]
      | nan => simp [isFiniteF] at hsvfin
      | pinf => simp [isFiniteF] at hsvfin
      | ninf => simp [isFiniteF] at hsvfin
    | fin q =>
      cases sv with
      | fin q2 => simp [isNanF]
      | nan => simp [isFiniteF] at hsvfin
      | pinf => simp [isFiniteF] at hsvfin
      | ninf => simp [isFiniteF] at hsvfin
  · -- the grid's finite cell j yields a finite output cell
    have hjget : mapper.grid.z[j]? = some (mapper.grid.z[j]) :=
      List.getElem?_eq_getElem hj
    have hgd : mapper.grid.z.getD j .nan = mapper.grid.z[j] := by
      rw [List.getD_eq_getElem?_getD, hjget]
      rfl
    have hzi : ∃ sv, hsg.z[j]? = some sv ∧ isFiniteF sv = true := by
      have hj2 : j < hsg.z.length := by omega
      exact ⟨hsg.z[j], by simp [List.getElem?_eq_getElem hj2],
        hfin _ _ _ _ _ _ (List.getElem_mem hj2)⟩
    obtain ⟨sv, hsv, hsvfin⟩ := hzi
    have hjnan : isNanF (mapper.grid.z[j]) = false := by
      rw [hgd] at hjfin
      cases hq : mapper.grid.z[j] <;> simp_all [isFiniteF, isNanF]
    obtain ⟨q, hq⟩ : ∃ q, sv = FVal.fin q := by
      cases sv with
      | fin q => exact ⟨q, rfl⟩
      | nan => simp [isFiniteF] at hsvfin
      | pinf => simp [isFiniteF] at hsvfin
      | ninf => simp [isFiniteF] at hsvfin
    have : (hillshade hs gn mapper az alt ex fu al).value[j]? = some (some q) := by
      rw [hred]
      simp only [prepareValue, List.getElem?_map, List.getElem?_zipWith', hsv, hjget]
      simp [hjnan, hq]
    exact ⟨some q, List.getElem?_mem this, rfl⟩

/-- A concrete stand-in for the external hillshade routine: constant
illumination 1/2 over the input grid's footprint (finite everywhere,
length-preserving). -/
def hsConst : GridObject → ℚ → ℚ → ℚ → Bool → GridObject :=
  fun g _ _ _ _ => ⟨g.z.map (fun _ => FVal.fin (1/2)), g.cellsize⟩

/-- A mapper whose grid is `[NaN, 3]` but whose `value` was overwritten with
all-NaN data. -/
def allNanMapper : MapObject :=
  setValue (mkDefaultMapObject ⟨[.nan, .fin 3], 1⟩ "dem") [.nan, .nan]

/-- Witness for C2 at `allNanMapper` and the constant shading routine. -/
theorem hillshade_all_nan_falls_back_witness :
    (hillshade hsConst "hs1" allNanMapper 315 50 1 true (9/20)).value.length = 2 :=
  (hillshade_all_nan_falls_back_to_grid hsConst "hs1" allNanMapper 315 50 1 true (9/20)
    (by intro g a b c f; simp [hsConst])
    (by
      intro g a b c f v hv
      simp only [hsConst, List.mem_map] at hv
      obtain ⟨w, _, rfl⟩ := hv
      rfl)
    (by decide) rfl
    ⟨1, by decide⟩).1.trans rfl

/-- The elementwise core of `multishade`'s averaging block
(`np.stack` / `valid_counts` / `np.nansum` / masked `np.divide`): count the
finite entries, sum with NaN treated as 0, divide where the count is
positive and emit NaN elsewhere. -/
def nanMeanPair (a b : Option ℚ) : Option ℚ :=
  let valid : ℕ := (if a.isSome then 1 else 0) + (if b.isSome then 1 else 0)
  if 0 < valid then some ((a.getD 0 + b.getD 0) / (valid : ℚ)) else none

/-- `hillshading.multishade`: two single-azimuth hillshades (at the
function's default `alpha=0.45`), averaged elementwise NaN-aware; the
result is a fresh gray, draped MapObject over a copy of the mapper's grid
carrying the averaged data.  `none` models the `ValueError` raised when
`azimuths` does not hold exactly two angles. -/
def multishade (hs : GridObject → ℚ → ℚ → ℚ → Bool → GridObject)
    (genName : String) (mapper : MapObject) (azimuths : List ℚ)
    (altitude exaggerate : ℚ) (fused : Bool) (alpha : ℚ) : Option MapObject :=
  if azimuths.length = 2 then
    let shade1 := hillshade hs genName mapper (azimuths.getD 0 0)
      altitude exaggerate fused (9/20)
    let shade2 := hillshade hs genName mapper (azimuths.getD 1 0)
      altitude exaggerate fused (9/20)
    let averaged := List.zipWith nanMeanPair shade1.value shade2.value
    let new_grid : GridObject := { z := averaged.map optToFVal, cellsize := mapper.grid.cellsize }
    let result := mkMapObject new_grid "gray" none none alpha none genName false
      (3/20) (4/5) (1/10) 10 none none none none none
    some (setValue { result with draped := true } (averaged.map optToFVal))
  else none

/-- Re-preparing an already-normalized array is the identity. -/
theorem prepareValue_optToFVal (l : List (Option ℚ)) :
    prepareValue (l.map optToFVal) = l := by
  induction l with
  | nil => rfl
  | cons a rest ih =>
    cases a <;> simp [prepareValue, optToFVal] at * <;> exact ih

/-- C3: at every cell of the multishade output, the value is the mean of the
two single-azimuth hillshades when both are finite, the single finite one
when exactly one is finite, and NaN exactly when both are NaN. -/
theorem multishade_is_nan_aware_mean
    (hs : GridObject → ℚ → ℚ → ℚ → Bool → GridObject) (gn : String)
    (mapper : MapObject) (a₁ a₂ alt ex : ℚ) (fu : Bool) (al : ℚ) (r : MapObject)
    (hr : multishade hs gn mapper [a₁, a₂] alt ex fu al = some r) :
    ∀ i, i < r.value.length →
      (∀ x y,
        (hillshade hs gn mapper a₁ alt ex fu (9/20)).value[i]? = some (some x) →
        (hillshade hs gn mapper a₂ alt ex fu (9/20)).value[i]? = some (some y) →
        r.value[i]? = some (some ((x + y) / 2))) ∧
      (∀ x,
        (hillshade hs gn mapper a₁ alt ex fu (9/20)).value[i]? = some (some x) →
        (hillshade hs gn mapper a₂ alt ex fu (9/20)).value[i]? = some none →
        r.value[i]? = some (some x)) ∧
      (∀ y,
        (hillshade hs gn mapper a₁ alt ex fu (9/20)).value[i]? = some none →
        (hillshade hs gn mapper a₂ alt ex fu (9/20)).value[i]? = some (some y) →
        r.value[i]? = some (some y)) ∧
      ((hillshade hs gn mapper a₁ alt ex fu (9/20)).value[i]? = some none →
        (hillshade hs gn mapper a₂ alt ex fu (9/20)).value[i]? = some none →
        r.value[i]? = some none) := by
  have hrv : r.value =
      List.zipWith nanMeanPair
        (hillshade hs gn mapper a₁ alt ex fu (9/20)).value
        (hillshade hs gn mapper a₂ alt ex fu (9/20)).value := by
    simp only [multishade, List.length_cons, List.length_nil, if_true,
      List.getD_cons_zero, List.getD_cons_succ] at hr
    injection hr.symm with hr2
    subst hr2
    simp only [setValue]
    exact prepareValue_optToFVal _
  intro i _
  refine ⟨?_, ?_, ?_, ?_⟩
  · intro x y h₁ h₂
    rw [hrv, List.getElem?_zipWith', h₁, h₂]
    simp [nanMeanPair]
  · intro x h₁ h₂
    rw [hrv, List.getElem?_zipWith', h₁, h₂]
    simp [nanMeanPair]
  · intro y h₁ h₂
    rw [hrv, List.getElem?_zipWith', h₁, h₂]
    simp [nanMeanPair]
  · intro h₁ h₂
    rw [hrv, List.getElem?_zipWith', h₁, h₂]
    simp [nanMeanPair]

/-- A one-cell mapper over the finite grid `[1]`. -/
def oneCellMapper : MapObject := mkDefaultMapObject ⟨[.fin 1], 1⟩ "dem1"

/-- The multishade of `oneCellMapper` under the constant shading routine. -/
def msResult : MapObject :=
  (multishade hsConst "ms" oneCellMapper [315, 135] 50 1 true (9/20)).getD
    (mkDefaultMapObject ⟨[], 1⟩ "void")

/-- Witness for C3 at `oneCellMapper`: both shades are finite 1/2 at cell 0,
so the multishade cell holds their mean. -/
theorem multishade_is_nan_aware_mean_witness :
    msResult.value[0]? = some (some ((1/2 + 1/2) / 2)) :=
  ((multishade_is_nan_aware_mean hsConst "ms" oneCellMapper 315 135 50 1 true (9/20)
      msResult rfl 0 (by decide)).1) (1/2) (1/2) rfl rfl

/-- The 0/1 valid-data indicator array (`finite_mask.astype(float)`). -/
def finiteMask01 (data : List (Option ℚ)) : List ℚ :=
  data.map (fun v => if v.isSome then (1 : ℚ) else 0)

/-- `filter2d.gaussian_smooth`'s invocation function.  The external
`scipy.ndimage.gaussian_filter` is the black-box parameter `G` (taking
sigma, the border mode and the array).  Both the zero-filled data and the
valid mask are smoothed, the quotient is taken, cells with zero accumulated
weight are set to NaN, and the result goes back through the `value`
setter. -/
def gaussian_smooth_apply (G : ℚ → String → List ℚ → List ℚ)
    (sigma : ℚ) (mode : String) (mapper : MapObject) : MapObject :=
  let data := mapper.value
  let filled := data.map (fun v => v.getD 0)
  let smoothed_data := G sigma mode filled
  let weights := G sigma mode (finiteMask01 data)
  let result : List FVal :=
    List.zipWith (fun sd w => if w = 0 then FVal.nan else FVal.fin (sd / w))
      smoothed_data weights
  setValue mapper result

/-- C6: after gaussian smoothing, every cell whose accumulated valid weight
is zero is NaN in the output regardless of its input; and when the
smoothing kernel maps the zero array to the zero array (as every
convolution does), an entirely-NaN input yields an entirely-NaN output. -/
theorem gaussian_smooth_nan_preserving (G : ℚ → String → List ℚ → List ℚ)
    (sigma : ℚ) (mode : String) (mapper : MapObject)
    (hzero : G sigma mode (List.replicate mapper.value.length 0) =
      List.replicate mapper.value.length 0) :
    (∀ i, i < (gaussian_smooth_apply G sigma mode mapper).value.length →
      (G sigma mode (finiteMask01 mapper.value))[i]? = some 0 →
      (gaussian_smooth_apply G sigma mode mapper).value[i]? = some none) ∧
    (mapper.value.all Option.isNone = true →
      (gaussian_smooth_apply G sigma mode mapper).value.all Option.isNone = true) := by
  constructor
  · intro i hi hw
    have hlen : (gaussian_smooth_apply G sigma mode mapper).value.length =
        min (G sigma mode (mapper.value.map (fun v => v.getD 0))).length
          (G sigma mode (finiteMask01 mapper.value)).length := by
      simp [gaussian_smooth_apply, setValue, prepareValue, List.length_zipWith]
    have hsd : ∃ sd,
        (G sigma mode (mapper.value.map (fun v => v.getD 0)))[i]? = some sd := by
      rw [hlen] at hi
      have : i < (G sigma mode (mapper.value.map (fun v => v.getD 0))).length := by
        omega
      exact ⟨_, List.getElem?_eq_getElem this⟩
    obtain ⟨sd, hsd⟩ := hsd
    show (setValue mapper _).value[i]? = some none
    simp only [setValue, prepareValue, List.getElem?_map, List.getElem?_zipWith',
      hsd, hw]
    simp
  · intro hall
    have hmask : finiteMask01 mapper.value = List.replicate mapper.value.length 0 := by
      unfold finiteMask01
      rw [List.eq_replicate_iff]
      refine ⟨by simp, ?_⟩
      intro b hb
      simp only [List.mem_map] at hb
      obtain ⟨o, ho, rfl⟩ := hb
      have := (List.all_eq_true.mp hall) o ho
      simp_all [Option.isNone_iff_eq_none]
    rw [List.all_eq_true]
    intro o ho
    rw [List.mem_iff_getElem?] at ho
    obtain ⟨i, hi⟩ := ho
    simp only [gaussian_smooth_apply, hmask, hzero, setValue, prepareValue,
      List.getElem?_map, List.getElem?_zipWith'] at hi
    cases hsd : (G sigma mode (List.map (fun v => v.getD 0) mapper.value))[i]? with
    | none => simp [hsd] at hi
    | some sd =>
      cases hw : (List.replicate mapper.value.length (0 : ℚ))[i]? with
      | none => simp [hsd, hw] at hi
      | some w =>
        have hw0 : w = 0 := List.eq_of_mem_replicate (List.getElem?_mem hw)
        subst hw0
        simp [hsd, hw] at hi
        simp [← hi]

/-- Witness for C6: the identity kernel on the all-NaN one-cell mapper. -/
theorem gaussian_smooth_nan_preserving_witness :
    (setValue oneCellMapper [FVal.nan]).value.all Option.isNone = true ∧
      (gaussian_smooth_apply (fun _ _ l => l) 1 "nearest"
          (setValue oneCellMapper [FVal.nan])).value.all Option.isNone = true :=
  ⟨by decide,
    (gaussian_smooth_nan_preserving (fun _ _ l => l) 1 "nearest"
      (setValue oneCellMapper [FVal.nan]) rfl).2 (by decide)⟩

/-- JSON-representable processor/loader parameter values; `pblob` stands
for a Python value `json.dumps` rejects (e.g. a numpy array). -/
inductive PVal where
  | pnum : ℚ → PVal
  | pstr : String → PVal
  | pbool : Bool → PVal
  | pnull : PVal
  | plist : List PVal → PVal
  | pblob : ℕ → PVal

mutual

/-- Decidable equality for `PVal` (the nested `plist` constructor defeats
the default deriving handler, so it is written out). -/
def PVal.deq : (a b : PVal) → Decidable (a = b)
  | .pnum x, .pnum y =>
    match decEq x y with
    | isTrue h => isTrue (h ▸ rfl)
    | isFalse h => isFalse (fun hh => h (PVal.pnum.inj hh))
  | .pstr x, .pstr y =>
    match decEq x y with
    | isTrue h => isTrue (h ▸ rfl)
    | isFalse h => isFalse (fun hh => h (PVal.pstr.inj hh))
  | .pbool x, .pbool y =>
    match decEq x y with
    | isTrue h => isTrue (h ▸ rfl)
    | isFalse h => isFalse (fun hh => h (PVal.pbool.inj hh))
  | .pnull, .pnull => isTrue rfl
  | .plist xs, .plist ys =>
    match PVal.deqList xs ys with
    | isTrue h => isTrue (h ▸ rfl)
    | isFalse h => isFalse (fun hh => h (PVal.plist.inj hh))
  | .pblob x, .pblob y =>
    match decEq x y with
    | isTrue h => isTrue (h ▸ rfl)
    | isFalse h => isFalse (fun hh => h (PVal.pblob.inj hh))
  | .pnum _, .pstr _ => isFalse (fun h => PVal.noConfusion h)
  | .pnum _, .pbool _ => isFalse (fun h => PVal.noConfusion h)
  | .pnum _, .pnull => isFalse (fun h => PVal.noConfusion h)
  | .pnum _, .plist _ => isFalse (fun h => PVal.noConfusion h)
  | .pnum _, .pblob _ => isFalse (fun h => PVal.noConfusion h)
  | .pstr _, .pnum _ => isFalse (fun h => PVal.noConfusion h)
  | .pstr _, .pbool _ => isFalse (fun h => PVal.noConfusion h)
  | .pstr _, .pnull => isFalse (fun h => PVal.noConfusion h)
  | .pstr _, .plist _ => isFalse (fun h => PVal.noConfusion h)
  | .pstr _, .pblob _ => isFalse (fun h => PVal.noConfusion h)
  | .pbool _, .pnum _ => isFalse (fun h => PVal.noConfusion h)
  | .pbool _, .pstr _ => isFalse (fun h => PVal.noConfusion h)
  | .pbool _, .pnull => isFalse (fun h => PVal.noConfusion h)
  | .pbool _, .plist _ => isFalse (fun h => PVal.noConfusion h)
  | .pbool _, .pblob _ => isFalse (fun h => PVal.noConfusion h)
  | .pnull, .pnum _ => isFalse (fun h => PVal.noConfusion h)
  | .pnull, .pstr _ => isFalse (fun h => PVal.noConfusion h)
  | .pnull, .pbool _ => isFalse (fun h => PVal.noConfusion h)
  | .pnull, .plist _ => isFalse (fun h => PVal.noConfusion h)
  | .pnull, .pblob _ => isFalse (fun h => PVal.noConfusion h)
  | .plist _, .pnum _ => isFalse (fun h => PVal.noConfusion h)
  | .plist _, .pstr _ => isFalse (fun h => PVal.noConfusion h)
  | .plist _, .pbool _ => isFalse (fun h => PVal.noConfusion h)
  | .plist _, .pnull => isFalse (fun h => PVal.noConfusion h)
  | .plist _, .pblob _ => isFalse (fun h => PVal.noConfusion h)
  | .pblob _, .pnum _ => isFalse (fun h => PVal.noConfusion h)
  | .pblob _, .pstr _ => isFalse (fun h => PVal.noConfusion h)
  | .pblob _, .pbool _ => isFalse (fun h => PVal.noConfusion h)
  | .pblob _, .pnull => isFalse (fun h => PVal.noConfusion h)
  | .pblob _, .plist _ => isFalse (fun h => PVal.noConfusion h)

/-- Decidable equality for lists of `PVal`. -/
def PVal.deqList : (a b : List PVal) → Decidable (a = b)
  | [], [] => isTrue rfl
  | [], _ :: _ => isFalse (fun h => List.noConfusion h)
  | _ :: _, [] => isFalse (fun h => List.noConfusion h)
  | x :: xs, y :: ys =>
    match PVal.deq x y, PVal.deqList xs ys with
    | isTrue h1, isTrue h2 => isTrue (h1 ▸ h2 ▸ rfl)
    | isFalse h1, _ => isFalse (fun h => h1 (List.cons.inj h).1)
    | _, isFalse h2 => isFalse (fun h => h2 (List.cons.inj h).2)

end

instance : DecidableEq PVal := PVal.deq

mutual

/-- `workflow._is_jsonable`: whether `json.dumps` accepts the value. -/
def isJsonable : PVal → Bool
  | .pblob _ => false
  | .plist l => isJsonableList l
  | _ => true

/-- A list is JSON-serializable when all of its entries are. -/
def isJsonableList : List PVal → Bool
  | [] => true
  | v :: rest => isJsonable v && isJsonableList rest

end

/-- A built `ProcessingFunction` as the workflow layer sees it: the
processor `name` and the parameter bag `ProcessorFactory.build` attached,
in insertion order.  The invocation function, the `recursive` flag and the
compatibility flags are the base keys `_serialize_proc_params` skips, so
they are kept out of the bag. -/
structure SProc where
  name : String
  params : List (String × PVal)
  deriving DecidableEq

/-- `workflow._serialize_proc_params`: keep exactly the JSON-serializable
parameters, dropping the rest silently. -/
def serializeProcParams (p : SProc) : List (String × PVal) :=
  p.params.filter (fun kv => isJsonable kv.2)

/-- The calling convention of one built-in processor factory: the internal
name of the processor it builds, its accepted keyword parameters with
their defaults (`none` = required positional), and the fixed parameters it
always stores (used by the zero-argument convenience wrappers such as
`double_scale`, which accepts nothing but stores `factor=2.0`). -/
structure Factory where
  builtName : String
  accepted : List (String × Option PVal)
  extra : List (String × PVal)
  deriving DecidableEq

/-- The ten keyword parameters of `lighting_control`, with preset values
substituted by the convenience factories (unsupplied ones stay `None`). -/
def lightingParamList (ambient diffuse specular specular_power : PVal)
    (smooth eye az el intensity : PVal) : List (String × PVal) :=
  [("enabled", .pnull), ("ambient", ambient), ("diffuse", diffuse),
   ("specular", specular), ("specular_power", specular_power),
   ("smooth_shading", smooth), ("eye_dome_lighting", eye),
   ("light_azimuth", az), ("light_elevation", el),
   ("light_intensity", intensity)]

/-- The accepted keyword list of `lighting_control` (all default `None`). -/
def lightingAccepted : List (String × Option PVal) :=
  [("enabled", some .pnull), ("ambient", some .pnull), ("diffuse", some .pnull),
   ("specular", some .pnull), ("specular_power", some .pnull),
   ("smooth_shading", some .pnull), ("eye_dome_lighting", some .pnull),
   ("light_azimuth", some .pnull), ("light_elevation", some .pnull),
   ("light_intensity", some .pnull)]

/-- `workflow.BUILTIN_PROCESSORS`: name → factory calling convention, built
from the masknan, filter2d, shading2d and helper3d registries. -/
def BUILTIN_PROCESSORS : List (String × Factory) :=
  [("nan_equal", ⟨"nan_equal", [("target", none)], []⟩),
   ("nan_below", ⟨"nan_below", [("threshold", some (.pnum 0))], []⟩),
   ("nan_above", ⟨"nan_above", [("threshold", some (.pnum 0))], []⟩),
   ("nan_mask", ⟨"nan_mask", [("mask", none)], []⟩),
   ("gaussian_smooth", ⟨"gaussian_smooth",
      [("sigma", some (.pnum 1)), ("mode", some (.pstr "nearest"))], []⟩),
   ("hillshade", ⟨"hillshade",
      [("azimuth", some (.pnum 315)), ("altitude", some (.pnum 50)),
       ("exaggerate", some (.pnum 1)), ("fused", some (.pbool true))], []⟩),
   ("multishade", ⟨"multishade",
      [("azimuths", some (.plist [.pnum 315, .pnum 135])),
       ("altitude", some (.pnum 50)), ("exaggerate", some (.pnum 1)),
       ("fused", some (.pbool true))], []⟩),
   ("scale", ⟨"scale", [("factor", none)], []⟩),
   ("double_scale", ⟨"scale", [], [("factor", .pnum 2)]⟩),
   ("halve_scale", ⟨"scale", [], [("factor", .pnum (1/2))]⟩),
   ("tenfold", ⟨"scale", [], [("factor", .pnum 10)]⟩),
   ("tenthfold", ⟨"scale", [], [("factor", .pnum (1/10))]⟩),
   ("lighting_control", ⟨"lighting_control", lightingAccepted, []⟩),
   ("matte_lighting", ⟨"lighting_control", [],
      lightingParamList (.pnum (1/5)) (.pnum (17/20)) (.pnum (1/50)) (.pnum 5)
        .pnull .pnull .pnull .pnull .pnull⟩),
   ("glossy_lighting", ⟨"lighting_control", [],
      lightingParamList (.pnum (3/25)) (.pnum (3/4)) (.pnum (7/20)) (.pnum 20)
        .pnull .pnull .pnull .pnull .pnull⟩),
   ("flat_lighting", ⟨"lighting_control", [],
      lightingParamList (.pnum 1) (.pnum 0) (.pnum 0) (.pnum 1)
        .pnull .pnull .pnull .pnull .pnull⟩),
   ("dramatic_lighting", ⟨"lighting_control", [],
      lightingParamList (.pnum (2/25)) (.pnum (19/20)) (.pnum (3/20)) (.pnum 25)
        .pnull .pnull .pnull .pnull .pnull⟩),
   ("heightmap_lighting", ⟨"lighting_control", [],
      lightingParamList (.pnum (3/25)) (.pnum (9/10)) (.pnum (2/25)) (.pnum 18)
        (.pbool true) (.pbool true) (.pnum 315) (.pnum 35) (.pnum (11/10))⟩),
   ("lighting_intensity_up", ⟨"lighting_intensity_up", [], []⟩),
   ("lighting_intensity_down", ⟨"lighting_intensity_down", [], []⟩),
   ("lighting_brighten", ⟨"lighting_brighten", [], []⟩),
   ("lighting_darken", ⟨"lighting_darken", [], []⟩),
   ("light_rotate_left", ⟨"light_rotate_left", [("degrees", some (.pnum 20))], []⟩),
   ("light_rotate_right", ⟨"light_rotate_right", [("degrees", some (.pnum 20))], []⟩),
   ("light_raise", ⟨"light_raise", [("degrees", some (.pnum 10))], []⟩),
   ("light_lower", ⟨"light_lower", [("degrees", some (.pnum 10))], []⟩)]

/-- One keyword argument during factory invocation: the given value when
supplied, the declared default otherwise, and an error (`TypeError`) on a
missing required argument. -/
def instArg (given : List (String × PVal)) (kd : String × Option PVal) :
    Option (String × PVal) :=
  match given.lookup kd.1 with
  | some v => some (kd.1, v)
  | none => kd.2.map (fun d => (kd.1, d))

/-- `BUILTIN_PROCESSORS[key](**given)`: error on an unknown key (the
`Unknown processor` check), an unexpected keyword, or a missing required
argument; otherwise a processor carrying its internal name and parameter
bag (accepted parameters in declaration order, then the factory's fixed
extras). -/
def instantiateProcessor (key : String) (given : List (String × PVal)) :
    Option SProc :=
  match BUILTIN_PROCESSORS.lookup key with
  | none => none
  | some f =>
    if given.all (fun kv => (f.accepted.lookup kv.1).isSome) then
      match f.accepted.mapM (instArg given) with
      | some args => some ⟨f.builtName, args ++ f.extra⟩
      | none => none
    else none

/-- A parameter value in a workflow document: a literal, or the
`{"$ref": input_name}` indirection. -/
inductive RefVal where
  | lit : PVal → RefVal
  | ref : String → RefVal
  deriving DecidableEq

/-- An `inputs` entry of a workflow spec. -/
structure InputSpec where
  itype : String
  prompt : String
  required : Bool
  default : Option PVal
  deriving DecidableEq

/-- A `data_sources` entry of a workflow spec. -/
structure DataSourceSpec where
  loader : String
  params : List (String × RefVal)
  deriving DecidableEq

/-- A processor declaration inside a map spec. -/
structure ProcSpec where
  name : String
  params : List (String × RefVal)
  deriving DecidableEq

/-- A `maps` entry: data reference, display parameters and processor
declarations.  (`vmin`/`vmax` are not serialized by
`_build_specs_from_maps`, so the rebuilt MapObject recomputes them.) -/
structure MapSpec where
  name : String
  data : String
  cmap : String
  alpha : ℚ
  cbar : Option String
  draped : Bool
  ambient : ℚ
  diffuse : ℚ
  specular : ℚ
  specular_power : ℚ
  smooth_shading : Option Bool
  eye_dome_lighting : Option Bool
  light_azimuth : Option ℚ
  light_elevation : Option ℚ
  light_intensity : Option ℚ
  processors : List ProcSpec
  deriving DecidableEq

/-- The sections of a workflow document that the maps round trip
exercises. -/
structure WorkflowSpec where
  inputs : List (String × InputSpec)
  data_sources : List (String × DataSourceSpec)
  maps : List MapSpec
  deriving DecidableEq

/-- A materialized layer: the MapObject state together with its attached
processors at the name/parameter granularity the workflow serializer works
at. -/
structure WLayer where
  st : MapObject
  procs : List SProc
  deriving DecidableEq

/-- `workflow._resolve_param`: dereference `{"$ref": name}` against the
resolved inputs (missing input = `KeyError`). -/
def resolveParam (inputs : List (String × PVal)) : RefVal → Option PVal
  | .lit v => some v
  | .ref r => inputs.lookup r

/-- `workflow._resolve_params`. -/
def resolveParams (inputs : List (String × PVal))
    (ps : List (String × RefVal)) : Option (List (String × PVal)) :=
  ps.mapM (fun kv => (resolveParam inputs kv.2).map (fun v => (kv.1, v)))

/-- `Workflow.resolve_inputs` called with no provided values: every input
resolves to its declared default (a missing default is a `KeyError`; the
type-directed parsing only applies to caller-provided values). -/
def resolveInputsDefaults (spec : WorkflowSpec) : Option (List (String × PVal)) :=
  spec.inputs.mapM (fun kv => kv.2.default.map (fun d => (kv.1, d)))

/-- The keys of `workflow.BUILTIN_LOADERS`; the actual loading call is the
external black-box parameter `load` of `buildMaps`. -/
def BUILTIN_LOADER_NAMES : List String :=
  ["topotoolbox.read_tif", "topotoolbox.load_dem", "rasterio", "numpy"]

/-- One iteration of `build_maps`' data-source loop: check the loader is
registered, resolve its parameters, and invoke the loader (the black-box
`load`). -/
def loadDataSource (load : String → List (String × PVal) → Option GridObject)
    (inputs : List (String × PVal)) (kv : String × DataSourceSpec) :
    Option (String × GridObject) :=
  if BUILTIN_LOADER_NAMES.contains kv.2.loader then do
    let params ← resolveParams inputs kv.2.params
    let g ← load kv.2.loader params
    some (kv.1, g)
  else none

/-- One iteration of `build_maps`' processor loop: resolve the declared
parameters and invoke the registered factory (whose registry lookup
surfaces the `Unknown processor` error). -/
def buildProcessor (inputs : List (String × PVal)) (ps : ProcSpec) :
    Option SProc := do
  let params ← resolveParams inputs ps.params
  instantiateProcessor ps.name params

/-- One iteration of `build_maps`' map loop: fetch the referenced grid,
construct the MapObject from the declared display parameters (an empty
name fails `MapObject._validate_name`), and attach the instantiated
processors in declaration order. -/
def buildMapEntry (inputs : List (String × PVal))
    (grids : List (String × GridObject)) (ms : MapSpec) : Option WLayer := do
  let g ← grids.lookup ms.data
  if ms.name = "" then none
  else
    let procs ← ms.processors.mapM (buildProcessor inputs)
    some (⟨mkMapObject g ms.cmap none none ms.alpha ms.cbar ms.name ms.draped
      ms.ambient ms.diffuse ms.specular ms.specular_power
      ms.smooth_shading ms.eye_dome_lighting
      ms.light_azimuth ms.light_elevation ms.light_intensity, procs⟩ : WLayer)

/-- `Workflow.build_maps`: load every data source, then build every map. -/
def buildMaps (load : String → List (String × PVal) → Option GridObject)
    (spec : WorkflowSpec) (inputs : List (String × PVal)) :
    Option (List WLayer) := do
  let grids ← spec.data_sources.mapM (loadDataSource load inputs)
  spec.maps.mapM (buildMapEntry inputs grids)

/-- The `inputs` entry `_build_specs_from_maps` emits for one layer: a path
input defaulting to `<name>.tif`. -/
def inputSpecOfMap (m : WLayer) : String × InputSpec :=
  (m.st.name ++ "_path",
    { itype := "path", prompt := "Path for " ++ m.st.name, required := true,
      default := some (.pstr (m.st.name ++ ".tif")) })

/-- The `data_sources` entry for one layer: the chosen loader, referencing
the layer's path input (keyword `source` for `topotoolbox.load_dem`, `path`
otherwise). -/
def dataSourceOfMap (default_loader : String) (m : WLayer) :
    String × DataSourceSpec :=
  (m.st.name,
    { loader := default_loader,
      params :=
        if default_loader = "topotoolbox.load_dem" then
          [("source", RefVal.ref (m.st.name ++ "_path"))]
        else
          [("path", RefVal.ref (m.st.name ++ "_path"))] })

/-- One serialized processor declaration (JSON-safe parameters only). -/
def procSpecOf (p : SProc) : ProcSpec :=
  { name := p.name,
    params := (serializeProcParams p).map (fun kv => (kv.1, RefVal.lit kv.2)) }

/-- The `maps` entry for one layer: display parameters and serialized
processors. -/
def mapSpecOfLayer (m : WLayer) : MapSpec :=
  { name := m.st.name, data := m.st.name, cmap := m.st.cmap,
    alpha := m.st.alpha, cbar := m.st.cbar, draped := m.st.draped,
    ambient := m.st.ambient, diffuse := m.st.diffuse,
    specular := m.st.specular, specular_power := m.st.specular_power,
    smooth_shading := m.st.smooth_shading,
    eye_dome_lighting := m.st.eye_dome_lighting,
    light_azimuth := m.st.light_azimuth,
    light_elevation := m.st.light_elevation,
    light_intensity := m.st.light_intensity,
    processors := m.procs.map procSpecOf }

/-- `workflow._build_specs_from_maps`: per layer, a path input defaulting to
`<name>.tif`, a data source referencing it, and a map spec capturing the
display parameters and every processor's JSON-safe parameters. -/
def buildSpecsFromMaps (maps : List WLayer) (default_loader : String) :
    WorkflowSpec :=
  { inputs := maps.map inputSpecOfMap,
    data_sources := maps.map (dataSourceOfMap default_loader),
    maps := maps.map mapSpecOfLayer }

/-- The C4 round trip: export a set of layers with the default loader
(`topotoolbox.read_tif`), resolve the generated inputs with their generated
defaults, and rebuild the maps. -/
def workflowRoundTrip (load : String → List (String × PVal) → Option GridObject)
    (maps : List WLayer) : Option (List WLayer) := do
  let spec := buildSpecsFromMaps maps "topotoolbox.read_tif"
  let inputs ← resolveInputsDefaults spec
  buildMaps load spec inputs

/-- A processor is factory-built when its name keys a registry entry that
builds that very name, stores no fixed extras, and whose accepted keyword
list matches the processor's parameter keys in order (as
`ProcessorFactory.build` lays them down). -/
def factoryBuilt (p : SProc) : Prop :=
  ∃ f, BUILTIN_PROCESSORS.lookup p.name = some f ∧ f.builtName = p.name ∧
    f.extra = [] ∧ p.params.map Prod.fst = f.accepted.map Prod.fst

/-- An option-valued map over a list succeeds elementwise. -/
theorem mapM_eq_map_of_forall {α β : Type} (f : α → Option β) (g : α → β) :
    ∀ (l : List α), (∀ x ∈ l, f x = some (g x)) → l.mapM f = some (l.map g) := by
  intro l
  induction l with
  | nil => intro _; rfl
  | cons a rest ih =>
    intro h
    have ha := h a (by simp)
    have ht := ih (fun x hx => h x (by simp [hx]))
    rw [List.mapM_cons, ha, ht]
    rfl

/-- An option-valued map over a list succeeds elementwise, tracking a
projection of each produced element. -/
theorem mapM_exists_map {α β γ : Type} (f : α → Option β) (nm : β → γ) (tg : α → γ) :
    ∀ (l : List α), (∀ x ∈ l, ∃ y, f x = some y ∧ nm y = tg x) →
      ∃ ys, l.mapM f = some ys ∧ ys.map nm = l.map tg := by
  intro l
  induction l with
  | nil => intro _; exact ⟨[], rfl, rfl⟩
  | cons a rest ih =>
    intro h
    obtain ⟨y, hy, hny⟩ := h a (by simp)
    obtain ⟨ys, hys, hmap⟩ := ih (fun x hx => h x (by simp [hx]))
    refine ⟨y :: ys, ?_, ?_⟩
    · rw [List.mapM_cons, hy, hys]
      rfl
    · simp [hmap, hny]

/-- Association-list lookup succeeds on any key present in the key list. -/
theorem lookup_isSome_of_mem_keys {β : Type} :
    ∀ (l : List (String × β)) (a : String),
      a ∈ l.map Prod.fst → (l.lookup a).isSome = true := by
  intro l
  induction l with
  | nil => intro a h; simp at h
  | cons kv rest ih =>
    intro a h
    by_cases hk : a = kv.1
    · simp [List.lookup, hk]
    · have : a ∈ rest.map Prod.fst := by
        simp only [List.map_cons, List.mem_cons] at h
        exact h.resolve_left hk
      have hb : (a == kv.1) = false := beq_eq_false_iff_ne.mpr hk
      simp [List.lookup, hb, ih a this]

/-- A successful association-list lookup exposes its entry. -/
theorem lookup_mem {β : Type} :
    ∀ (l : List (String × β)) (a : String) (b : β),
      l.lookup a = some b → (a, b) ∈ l := by
  intro l
  induction l with
  | nil => intro a b h; simp [List.lookup] at h
  | cons kv rest ih =>
    intro a b h
    by_cases hk : (a == kv.1) = true
    · have ha : a = kv.1 := eq_of_beq hk
      simp only [List.lookup, hk] at h
      obtain ⟨k, v⟩ := kv
      simp_all
    · have hb : (a == kv.1) = false := by simpa using hk
      simp only [List.lookup, hb] at h
      exact List.mem_cons_of_mem _ (ih a b h)

/-- Keyword-argument assembly only consults the keys the factory accepts. -/
theorem mapM_instArg_congr (g₁ g₂ : List (String × PVal)) :
    ∀ (acc : List (String × Option PVal)),
      (∀ kd ∈ acc, g₁.lookup kd.1 = g₂.lookup kd.1) →
      acc.mapM (instArg g₁) = acc.mapM (instArg g₂) := by
  intro acc
  induction acc with
  | nil => intro _; rfl
  | cons kd rest ih =>
    intro h
    have hk := h kd (by simp)
    have ht := ih (fun x hx => h x (by simp [hx]))
    have hhead : instArg g₁ kd = instArg g₂ kd := by simp [instArg, hk]
    rw [List.mapM_cons, List.mapM_cons, hhead, ht]

/-- Keyword-argument assembly recovers the given arguments exactly when
they list the factory's (distinct) accepted keys in declaration order. -/
theorem mapM_instArg_recover :
    ∀ (given : List (String × PVal)) (acc : List (String × Option PVal)),
      given.map Prod.fst = acc.map Prod.fst →
      (acc.map Prod.fst).Nodup →
      acc.mapM (instArg given) = some given := by
  intro given
  induction given with
  | nil =>
    intro acc h _
    have : acc = [] := by
      cases acc with
      | nil => rfl
      | cons a r => simp at h
    subst this
    rfl
  | cons kv gt ih =>
    intro acc hk hnd
    obtain ⟨k, v⟩ := kv
    cases acc with
    | nil => simp at hk
    | cons ad at2 =>
      obtain ⟨k₂, d⟩ := ad
      simp only [List.map_cons, List.cons.injEq] at hk
      obtain ⟨hkey, htail⟩ := hk
      subst hkey
      simp only [List.map_cons, List.nodup_cons] at hnd
      obtain ⟨hknotin, hndtail⟩ := hnd
      have hhead : instArg ((k, v) :: gt) (k, d) = some (k, v) := by
        simp [instArg, List.lookup]
      have htcongr : at2.mapM (instArg ((k, v) :: gt)) = at2.mapM (instArg gt) := by
        apply mapM_instArg_congr
        intro kd hkd
        have hne : kd.1 ≠ k := by
          intro he
          apply hknotin
          rw [← he]
          exact List.mem_map_of_mem Prod.fst hkd
        have hb : (kd.1 == k) = false := beq_eq_false_iff_ne.mpr hne
        simp [List.lookup, hb]
      have htl : at2.mapM (instArg gt) = some gt := ih at2 htail hndtail
      rw [List.mapM_cons, hhead, htcongr, htl]
      rfl

/-- Every registered factory declares pairwise-distinct accepted keys. -/
theorem builtin_accepted_nodup :
    ∀ kv ∈ BUILTIN_PROCESSORS, (kv.2.accepted.map Prod.fst).Nodup := by
  decide

/-- Literal (reference-free) parameter lists resolve to themselves. -/
theorem resolveParams_lit (inputs : List (String × PVal)) :
    ∀ (l : List (String × PVal)),
      resolveParams inputs (l.map (fun kv => (kv.1, RefVal.lit kv.2))) = some l := by
  intro l
  induction l with
  | nil => rfl
  | cons kv rest ih =>
    simp only [resolveParams] at ih ⊢
    rw [List.map_cons, List.mapM_cons, ih]
    rfl

/-- Re-invoking a factory-built processor's factory on its serialized
(all-JSON-safe) parameters rebuilds the processor exactly. -/
theorem instantiate_serialized (p : SProc) (hp : factoryBuilt p)
    (hj : p.params.all (fun kv => isJsonable kv.2) = true) :
    instantiateProcessor p.name (serializeProcParams p) = some p := by
  obtain ⟨f, hf, hbn, hex, hkeys⟩ := hp
  have hser : serializeProcParams p = p.params :=
    List.filter_eq_self.mpr (List.all_eq_true.mp hj)
  have hnd : (f.accepted.map Prod.fst).Nodup :=
    builtin_accepted_nodup (p.name, f) (lookup_mem _ _ _ hf)
  have hall : p.params.all (fun kv => (f.accepted.lookup kv.1).isSome) = true := by
    rw [List.all_eq_true]
    intro kv hkv
    apply lookup_isSome_of_mem_keys
    rw [← hkeys]
    exact List.mem_map_of_mem Prod.fst hkv
  have hrec : f.accepted.mapM (instArg p.params) = some p.params :=
    mapM_instArg_recover p.params f.accepted hkeys hnd
  rw [instantiateProcessor, hser, hf]
  simp only [hall, if_true, hrec]
  rw [hex, hbn]
  simp

/-- The literal-stripping inverse of serialization (on reference-free
parameter lists). -/
def delitRef : RefVal → PVal
  | .lit v => v
  | .ref _ => .pnull

/-- The processor a rebuilt map spec entry denotes. -/
def procOfSpec (ps : ProcSpec) : SProc :=
  ⟨ps.name, ps.params.map (fun kv => (kv.1, delitRef kv.2))⟩

/-- Deserializing a serialized processor declaration recovers the processor
when its parameters are all JSON-safe. -/
theorem procOfSpec_procSpecOf (p : SProc)
    (hj : p.params.all (fun kv => isJsonable kv.2) = true) :
    procOfSpec (procSpecOf p) = p := by
  have hser : serializeProcParams p = p.params :=
    List.filter_eq_self.mpr (List.all_eq_true.mp hj)
  simp only [procOfSpec, procSpecOf, List.map_map]
  rw [hser]
  have h2 : p.params.map ((fun kv : String × RefVal => (kv.1, delitRef kv.2)) ∘
      (fun kv : String × PVal => (kv.1, RefVal.lit kv.2))) = p.params := by
    refine Eq.trans ?_ (List.map_id p.params)
    apply List.map_congr_left
    intro kv _
    rfl
  rw [h2]

/-- C4 (amended): serializing a set of layers via workflow export and then
resolving inputs with the generated defaults and rebuilding maps yields
layers with the same names and the same processor name/parameter
sequences — provided every attached processor is factory-built and all its
parameter values are JSON-serializable, and the referenced paths load. -/
theorem workflow_export_rebuild_round_trip
    (load : String → List (String × PVal) → Option GridObject)
    (maps : List WLayer)
    (hload : ∀ ps, (load "topotoolbox.read_tif" ps).isSome = true)
    (hnames : ∀ m ∈ maps, m.st.name ≠ "")
    (hprocs : ∀ m ∈ maps, ∀ p ∈ m.procs, factoryBuilt p ∧
      p.params.all (fun kv => isJsonable kv.2) = true) :
    ∃ rebuilt, workflowRoundTrip load maps = some rebuilt ∧
      rebuilt.map (fun m => (m.st.name, m.procs)) =
        maps.map (fun m => (m.st.name, m.procs)) := by
  set ins := maps.map (fun m =>
    (m.st.name ++ "_path", PVal.pstr (m.st.name ++ ".tif"))) with hins_def
  have hins : resolveInputsDefaults (buildSpecsFromMaps maps "topotoolbox.read_tif") =
      some ins := by
    have h := mapM_eq_map_of_forall
      (fun kv : String × InputSpec => kv.2.default.map (fun d => (kv.1, d)))
      (fun kv => (kv.1, kv.2.default.getD PVal.pnull))
      ((buildSpecsFromMaps maps "topotoolbox.read_tif").inputs)
      (by
        intro x hx
        simp only [buildSpecsFromMaps, List.mem_map] at hx
        obtain ⟨m, _, rfl⟩ := hx
        rfl)
    refine h.trans ?_
    congr 1
    simp only [buildSpecsFromMaps, List.map_map, hins_def]
    rfl
  obtain ⟨gl, hgl, hglmap⟩ := mapM_exists_map
    (loadDataSource load ins) Prod.fst Prod.fst
    ((buildSpecsFromMaps maps "topotoolbox.read_tif").data_sources)
    (by
      intro x hx
      simp only [buildSpecsFromMaps, List.mem_map] at hx
      obtain ⟨m, hm, rfl⟩ := hx
      have hkey : m.st.name ++ "_path" ∈ ins.map Prod.fst := by
        rw [hins_def, List.map_map]
        exact List.mem_map_of_mem _ hm
      obtain ⟨pv, hpv⟩ := Option.isSome_iff_exists.mp
        (lookup_isSome_of_mem_keys ins _ hkey)
      have hrp : resolveParams ins [("path", RefVal.ref (m.st.name ++ "_path"))] =
          some [("path", pv)] := by
        simp only [resolveParams]
        rw [List.mapM_cons]
        simp [resolveParam, hpv]
        rfl
      obtain ⟨g, hgload⟩ := Option.isSome_iff_exists.mp (hload [("path", pv)])
      refine ⟨(m.st.name, g), ?_, rfl⟩
      unfold loadDataSource
      rw [show (dataSourceOfMap "topotoolbox.read_tif" m).2.loader =
        "topotoolbox.read_tif" from rfl]
      rw [show (dataSourceOfMap "topotoolbox.read_tif" m).2.params =
        [("path", RefVal.ref (m.st.name ++ "_path"))] from rfl]
      rw [show (dataSourceOfMap "topotoolbox.read_tif" m).1 = m.st.name from rfl]
      rw [if_pos (by decide)]
      rw [hrp]
      show (load "topotoolbox.read_tif" [("path", pv)]).bind _ = some (m.st.name, g)
      rw [hgload]
      rfl)
  have hglkeys : gl.map Prod.fst = maps.map (fun m => m.st.name) := by
    rw [hglmap]
    simp only [buildSpecsFromMaps, List.map_map]
    rfl
  obtain ⟨rebuilt, hrb, hrbmap⟩ := mapM_exists_map
    (buildMapEntry ins gl)
    (fun y => (y.st.name, y.procs))
    (fun ms => (ms.name, ms.processors.map procOfSpec))
    ((buildSpecsFromMaps maps "topotoolbox.read_tif").maps)
    (by
      intro ms hms
      simp only [buildSpecsFromMaps, List.mem_map] at hms
      obtain ⟨m, hm, rfl⟩ := hms
      have hdata : m.st.name ∈ gl.map Prod.fst := by
        rw [hglkeys]
        exact List.mem_map_of_mem _ hm
      obtain ⟨g2, hg2⟩ := Option.isSome_iff_exists.mp
        (lookup_isSome_of_mem_keys gl _ hdata)
      have hpm : ∀ ps ∈ m.procs.map procSpecOf,
          buildProcessor ins ps = some (procOfSpec ps) := by
        intro ps hps
        simp only [List.mem_map] at hps
        obtain ⟨p, hp, rfl⟩ := hps
        obtain ⟨hfb, hj⟩ := hprocs m hm p hp
        rw [procOfSpec_procSpecOf p hj]
        unfold buildProcessor
        rw [show (procSpecOf p).params = (serializeProcParams p).map
          (fun kv => (kv.1, RefVal.lit kv.2)) from rfl]
        rw [resolveParams_lit ins (serializeProcParams p)]
        show instantiateProcessor (procSpecOf p).name (serializeProcParams p) = some p
        rw [show (procSpecOf p).name = p.name from rfl]
        exact instantiate_serialized p hfb hj
      have hpmM := mapM_eq_map_of_forall (buildProcessor ins) procOfSpec _ hpm
      have hbm : buildMapEntry ins gl (mapSpecOfLayer m) =
          some ⟨mkMapObject g2 m.st.cmap none none m.st.alpha m.st.cbar m.st.name
            m.st.draped m.st.ambient m.st.diffuse m.st.specular m.st.specular_power
            m.st.smooth_shading m.st.eye_dome_lighting m.st.light_azimuth
            m.st.light_elevation m.st.light_intensity,
            (m.procs.map procSpecOf).map procOfSpec⟩ := by
        unfold buildMapEntry
        rw [show (mapSpecOfLayer m).data = m.st.name from rfl, hg2,
          Option.bind_eq_bind, Option.some_bind]
        rw [show (mapSpecOfLayer m).name = m.st.name from rfl,
          if_neg (hnames m hm)]
        rw [show (mapSpecOfLayer m).processors = m.procs.map procSpecOf from rfl,
          hpmM]
        rfl
      exact ⟨_, hbm, rfl⟩)
  refine ⟨rebuilt, ?_, ?_⟩
  · show workflowRoundTrip load maps = some rebuilt
    unfold workflowRoundTrip
    show (resolveInputsDefaults (buildSpecsFromMaps maps "topotoolbox.read_tif")).bind
      (fun inputs => buildMaps load (buildSpecsFromMaps maps "topotoolbox.read_tif") inputs) =
        some rebuilt
    rw [hins, Option.some_bind]
    show buildMaps load (buildSpecsFromMaps maps "topotoolbox.read_tif") ins = some rebuilt
    unfold buildMaps
    show ((buildSpecsFromMaps maps "topotoolbox.read_tif").data_sources.mapM
        (loadDataSource load ins)).bind
      (fun grids => (buildSpecsFromMaps maps "topotoolbox.read_tif").maps.mapM
        (buildMapEntry ins grids)) = some rebuilt
    rw [hgl, Option.some_bind]
    exact hrb
  · rw [hrbmap]
    simp only [buildSpecsFromMaps, List.map_map]
    apply List.map_congr_left
    intro m hm
    show ((mapSpecOfLayer m).name, (mapSpecOfLayer m).processors.map procOfSpec) = _
    rw [show (mapSpecOfLayer m).name = m.st.name from rfl]
    rw [show (mapSpecOfLayer m).processors = m.procs.map procSpecOf from rfl]
    rw [List.map_map]
    have h2 : m.procs.map (procOfSpec ∘ procSpecOf) = m.procs := by
      refine Eq.trans ?_ (List.map_id m.procs)
      apply List.map_congr_left
      intro p hp
      exact procOfSpec_procSpecOf p (hprocs m hm p hp).2
    rw [h2]



/-- A loader stand-in that always produces a one-cell grid. -/
def trivLoad : String → List (String × PVal) → Option GridObject :=
  fun _ _ => some ⟨[.fin 1], 1⟩

/-- A layer carrying a `nan_mask` processor whose mask parameter is a
non-JSON-serializable array value. -/
def blobMaskLayer : WLayer :=
  ⟨mkDefaultMapObject ⟨[.fin 1], 1⟩ "dem", [⟨"nan_mask", [("mask", .pblob 0)]⟩]⟩

/-- C4 counterexample: the workflow round trip is not total on arbitrary
layers — serialization silently drops the non-JSON-safe `mask` parameter,
and rebuilding then fails (`nan_mask` has no default for its required
argument), so no layers at all are produced, contradicting the claimed
round trip for every set of layers. -/
theorem workflow_round_trip_loses_required_param :
    workflowRoundTrip trivLoad [blobMaskLayer] = none := by
  decide

/-- A layer with a factory-built, fully JSON-safe processor chain. -/
def rtLayer : WLayer :=
  ⟨mkDefaultMapObject ⟨[.fin 1], 1⟩ "dem", [⟨"nan_below", [("threshold", .pnum 0)]⟩]⟩

/-- Witness for C4's amended round trip at `rtLayer`. -/
theorem workflow_export_rebuild_round_trip_witness :
    (workflowRoundTrip trivLoad [rtLayer]).map
        (fun ls => ls.map (fun m => (m.st.name, m.procs))) =
      some [("dem", [⟨"nan_below", [("threshold", PVal.pnum 0)]⟩])] := by
  obtain ⟨rb, heq, hmap⟩ := workflow_export_rebuild_round_trip trivLoad [rtLayer]
    (fun _ => rfl)
    (by
      intro m hm
      rw [List.mem_singleton] at hm
      subst hm
      decide)
    (by
      intro m hm p hp
      rw [List.mem_singleton] at hm
      subst hm
      rw [show rtLayer.procs = [⟨"nan_below", [("threshold", PVal.pnum 0)]⟩] from rfl,
        List.mem_singleton] at hp
      subst hp
      exact ⟨⟨⟨"nan_below", [("threshold", some (.pnum 0))], []⟩, rfl, rfl, rfl, rfl⟩,
        by decide⟩)
  rw [heq]
  show some (rb.map (fun m => (m.st.name, m.procs))) = _
  rw [hmap]
  rfl


end PyTopoViz
